import Mathlib

/-!
Verification of the MCP server entry point (`src/mcp/server.ts`) of the
dot-ai repository.

The entry point is a process-lifecycle controller: it validates the
`DOT_AI_SESSION_DIR` environment variable and the directory it names,
initializes the domain service (`DotAI.initializeWithoutCluster`),
constructs and starts the protocol server (`MCPServer`), and installs
SIGINT/SIGTERM handlers that stop the server and exit.  We embed the
controller as a function from an abstract environment (which records the
outcome every external call would have: filesystem answers, whether each
fallible call throws) to the trace of observable events the process
performs (diagnostic writes, filesystem probe operations, lifecycle calls,
process exit).  Each branch of the embedding mirrors a branch of the
source.
-/

namespace DotAiMcp

/-- Observable events of the entry-point process, in program order.
`stdout` never occurs in any trace produced by the embedding because the
source writes lifecycle messages exclusively with `process.stderr.write`;
the constructor exists so that absence is a statable property. -/
inductive Event where
  | stderr (msg : String)
  | stdout (msg : String)
  /-- event for a call of `fs.existsSync(sessionDir)` -/
  | existsCheck
  /-- event for a call of `fs.statSync(sessionDir)` -/
  | statCheck
  /-- successful `fs.writeFileSync(file, content)`: the probe file now exists -/
  | probeWrite (file : String) (content : String)
  /-- successful `fs.unlinkSync(file)`: the probe file is removed -/
  | probeDelete (file : String)
  /-- event for a call of `dotAI.initializeWithoutCluster()` -/
  | initCall
  /-- event for `new MCPServer(dotAI, metadata)` -/
  | constructServer
  /-- event for a call of `mcpServer.start()` -/
  | startCall
  /-- registration of the SIGINT and SIGTERM handlers via `process.on` -/
  | installHandlers
  /-- event for a call of `mcpServer.stop()` -/
  | stopCall
  /-- event `process.exit(code)`; terminates the trace -/
  | exit (code : Nat)
deriving DecidableEq, Repr

/-- The metadata object passed to `new MCPServer` in the source. -/
structure ServerMetadata where
  name : String
  version : String
  description : String
  author : String
deriving DecidableEq, Repr

/-- The literal metadata from `server.ts`. -/
def serverMetadata : ServerMetadata :=
  { name := "dot-ai"
    version := "0.1.0"
    description := "Universal Kubernetes application deployment agent with AI-powered orchestration"
    author := "Viktor Farcic" }

/-- Abstract process environment: the value of `DOT_AI_SESSION_DIR` and the
outcome each external call would have if reached.  `Throws` fields are true
when the corresponding call raises / rejects; error payloads are carried as
opaque strings. -/
structure Env where
  /-- value of `process.env.DOT_AI_SESSION_DIR` (`none` = unset) -/
  sessionDir : Option String
  /-- true when `fs.existsSync` throws instead of returning -/
  existsThrows : Bool
  /-- result of `fs.existsSync(sessionDir)` when it returns -/
  pathExists : Bool
  /-- true when `fs.statSync` throws instead of returning -/
  statThrows : Bool
  /-- result of `stat.isDirectory()` when `statSync` returns -/
  isDirectory : Bool
  /-- true when `fs.writeFileSync(testFile, 'test')` throws (probe file not created) -/
  writeThrows : Bool
  /-- true when `fs.unlinkSync(testFile)` throws (probe file not removed) -/
  unlinkThrows : Bool
  /-- true when `dotAI.initializeWithoutCluster()` rejects -/
  initThrows : Bool
  /-- true when `mcpServer.start()` rejects -/
  startThrows : Bool
  /-- true when `mcpServer.stop()` rejects -/
  stopThrows : Bool
  /-- string form of the error caught by the outer validation catch -/
  fsErrorMsg : String
  /-- string form of the error caught from `initializeWithoutCluster` -/
  initErrorMsg : String
  /-- string form of the error caught from `start()` -/
  startErrorMsg : String
  /-- string form of the reason carried by a rejection of `stop()` -/
  stopErrorMsg : String
deriving DecidableEq, Repr

/-- JavaScript truthiness test of the source line
`if (!sessionDir)`: true when the variable is unset or the empty string. -/
def missingSessionDir (e : Env) : Bool :=
  match e.sessionDir with
  | none => true
  | some s => s.isEmpty

/-- the probe-file path `path.join(sessionDir, '.mcp-test-write')`. -/
def testFilePath (dir : String) : String :=
  dir ++ "/" ++ ".mcp-test-write"

/-- Diagnostics emitted on the missing-configuration branch of `main`. -/
def missingConfigTrace : List Event :=
  [ .stderr "FATAL: DOT_AI_SESSION_DIR environment variable is required\n"
  , .stderr "Configuration:\n"
  , .stderr "- Set DOT_AI_SESSION_DIR in .mcp.json env section\n"
  , .stderr "- Example: \"DOT_AI_SESSION_DIR\": \"/tmp/dot-ai-sessions\"\n"
  , .stderr "- Ensure the directory exists and is writable\n"
  , .exit 1 ]

/-- The session-directory validation block of `main` (the env-var check and
the inner `try` over the filesystem checks), as the trace of events it
performs.  Mirrors the source branch for branch; a branch that calls
`process.exit(1)` ends the trace with `.exit 1`. -/
def validationTrace (e : Env) : List Event :=
  if missingSessionDir e then
    missingConfigTrace
  else
    match e.sessionDir with
    | none => missingConfigTrace
    | some dir =>
      .existsCheck ::
      if e.existsThrows then
        [ .stderr ("FATAL: Session directory validation failed: " ++ e.fsErrorMsg ++ "\n")
        , .exit 1 ]
      else if !e.pathExists then
        [ .stderr ("FATAL: Session directory does not exist: " ++ dir ++ "\n")
        , .stderr "Solution: Create the directory or update DOT_AI_SESSION_DIR\n"
        , .exit 1 ]
      else
        .statCheck ::
        if e.statThrows then
          [ .stderr ("FATAL: Session directory validation failed: " ++ e.fsErrorMsg ++ "\n")
          , .exit 1 ]
        else if !e.isDirectory then
          [ .stderr ("FATAL: Session directory path is not a directory: " ++ dir ++ "\n")
          , .stderr "Solution: Use a valid directory path in DOT_AI_SESSION_DIR\n"
          , .exit 1 ]
        else if e.writeThrows then
          [ .stderr ("FATAL: Session directory is not writable: " ++ dir ++ "\n")
          , .stderr "Solution: Fix directory permissions or use a different directory\n"
          , .exit 1 ]
        else
          .probeWrite (testFilePath dir) "test" ::
          if e.unlinkThrows then
            [ .stderr ("FATAL: Session directory is not writable: " ++ dir ++ "\n")
            , .stderr "Solution: Fix directory permissions or use a different directory\n"
            , .exit 1 ]
          else
            [ .probeDelete (testFilePath dir)
            , .stderr ("Session directory validated: " ++ dir ++ "\n") ]

/-- True exactly when the validation block falls through without calling
`process.exit` (all checks pass). -/
def validationOk (e : Env) : Bool :=
  !missingSessionDir e && !e.existsThrows && e.pathExists && !e.statThrows &&
  e.isDirectory && !e.writeThrows && !e.unlinkThrows

/-- The remainder of `main` after a successful validation: `new DotAI()`,
initialization with its try/catch, server construction, `start()` with the
enclosing outer catch, and — on success — registration of the signal
handlers.  Mirrors the source. -/
def afterValidationTrace (e : Env) : List Event :=
  .stderr "Initializing DevOps AI Toolkit...\n" ::
  .initCall ::
  if e.initThrows then
    [ .stderr ("FATAL: Failed to initialize DevOps AI Toolkit: " ++ e.initErrorMsg ++ "\n")
    , .exit 1 ]
  else
    .stderr "DevOps AI Toolkit initialized successfully\n" ::
    .stderr "Cluster connectivity will be checked when needed by individual tools\n" ::
    .constructServer ::
    .stderr "Starting DevOps AI Toolkit MCP server...\n" ::
    .startCall ::
    if e.startThrows then
      -- a rejection of start() is caught by the outer catch of main
      [ .stderr ("Failed to start DevOps AI Toolkit MCP server: " ++ e.startErrorMsg ++ "\n")
      , .exit 1 ]
    else
      [ .stderr "DevOps AI Toolkit MCP server started successfully\n"
      , .installHandlers ]

/-- The trace of `main` from entry up to either a `process.exit` or the
resident running state (trace ends after handler registration). -/
def mainTrace (e : Env) : List Event :=
  .stderr "Validating MCP server configuration...\n" ::
  validationTrace e ++ (if validationOk e then afterValidationTrace e else [])

/-- True exactly when `main` reaches the running state (validation,
initialization and start all succeeded). -/
def runningReached (e : Env) : Bool :=
  validationOk e && !e.initThrows && !e.startThrows

/-- The body of the `process.on('SIGINT', ...)` callback: shutdown notice,
`await mcpServer.stop()`, then `process.exit(0)` — which is reached only if
`stop()` resolved; a rejection escapes the async callback. -/
def sigintHandlerBody (stopResolves : Bool) : List Event :=
  .stderr "Shutting down DevOps AI Toolkit MCP server...\n" ::
  .stopCall ::
  if stopResolves then [.exit 0] else []

/-- The body of the `process.on('SIGTERM', ...)` callback, translated
separately from its own source lines. -/
def sigtermHandlerBody (stopResolves : Bool) : List Event :=
  .stderr "Shutting down DevOps AI Toolkit MCP server...\n" ::
  .stopCall ::
  if stopResolves then [.exit 0] else []

/-- The `process.on('unhandledRejection', ...)` handler. -/
def unhandledRejectionTrace (reason : String) : List Event :=
  [ .stderr ("Unhandled rejection in MCP server: " ++ reason ++ "\n")
  , .exit 1 ]

/-- The `process.on('uncaughtException', ...)` handler. -/
def uncaughtExceptionTrace (err : String) : List Event :=
  [ .stderr ("Uncaught exception in MCP server: " ++ err ++ "\n")
  , .exit 1 ]

/-- The `main().catch(...)` handler at the bottom of the file. -/
def mainCatchTrace (err : String) : List Event :=
  [ .stderr ("Fatal error starting MCP server: " ++ err ++ "\n")
  , .exit 1 ]

/-- The two consumed signals. -/
inductive Signal where
  | sigint
  | sigterm
deriving DecidableEq, Repr

/-- The handler body registered for a given signal. -/
def handlerBodyFor : Signal → Bool → List Event
  | .sigint => sigintHandlerBody
  | .sigterm => sigtermHandlerBody

/-- Process-level effect of delivering a signal in the running state: the
registered callback runs; if `stop()` rejects, the callback's promise is
never handled by anyone, so Node fires `unhandledRejection`, whose
registered handler then runs. -/
def signalDeliveryTrace (sig : Signal) (e : Env) : List Event :=
  handlerBodyFor sig (!e.stopThrows) ++
  if e.stopThrows then unhandledRejectionTrace e.stopErrorMsg else []

/-- A whole run: boot via `main`, then — only if the running state was
reached (the process has not already exited) — delivery of one signal.
Before the running state no handler is registered, so a delivered signal
terminates the process by OS default without executing any code of this
program. -/
def runWithSignal (e : Env) (sig : Signal) : List Event :=
  mainTrace e ++ if runningReached e then signalDeliveryTrace sig e else []

/-- Outcome classification of the validation block, one constructor per
exit branch of the source (`genericFailure` is the outer catch around the
filesystem checks). -/
inductive ValidationOutcome where
  | missingConfig
  | pathNotFound
  | notADirectory
  | notWritable
  | genericFailure
  | ok
deriving DecidableEq, Repr

/-- The branch of the validation block the environment takes, read off the
source's control flow. -/
def validateOutcome (e : Env) : ValidationOutcome :=
  if missingSessionDir e then .missingConfig
  else if e.existsThrows then .genericFailure
  else if !e.pathExists then .pathNotFound
  else if e.statThrows then .genericFailure
  else if !e.isDirectory then .notADirectory
  else if e.writeThrows then .notWritable
  else if e.unlinkThrows then .notWritable
  else .ok

/-- The spec's preflight tuple: (config present and non-empty, path exists,
path is a directory, probe can be written and deleted). -/
def preflightTuple (e : Env) : Bool × Bool × Bool × Bool :=
  (!missingSessionDir e, e.pathExists, e.isDirectory, !e.writeThrows && !e.unlinkThrows)

/-- The outcome the spec prescribes as a function of the preflight tuple,
evaluated strictly in order. -/
def specOrderedOutcome : Bool × Bool × Bool × Bool → ValidationOutcome
  | (false, _, _, _) => .missingConfig
  | (true, false, _, _) => .pathNotFound
  | (true, true, false, _) => .notADirectory
  | (true, true, true, false) => .notWritable
  | (true, true, true, true) => .ok

/-- Exit code of a trace: the code of the first `exit` event, if any. -/
def exitCode : List Event → Option Nat
  | [] => none
  | .exit c :: _ => some c
  | _ :: rest => exitCode rest

/-- Number of `stopCall` events in a trace. -/
def countStopCalls (t : List Event) : Nat :=
  t.countP fun ev => ev = .stopCall

/-- True when a probe file was created by the trace. -/
def hasProbeWrite (t : List Event) : Bool :=
  t.any fun ev => match ev with
    | .probeWrite _ _ => true
    | _ => false

/-- True when a probe file was deleted by the trace. -/
def hasProbeDelete (t : List Event) : Bool :=
  t.any fun ev => match ev with
    | .probeDelete _ => true
    | _ => false

/-- True when the trace leaves a probe file behind: it created one and
never deleted one. -/
def probeFileRemains (t : List Event) : Bool :=
  hasProbeWrite t && !hasProbeDelete t

/-- Scanner: every `exit` event in the trace is preceded (anywhere earlier)
by at least one `stderr` write.  `seen` records whether a `stderr` has
already occurred. -/
def stderrBeforeEveryExit (seen : Bool) : List Event → Bool
  | [] => true
  | .exit _ :: rest => seen && stderrBeforeEveryExit seen rest
  | .stderr _ :: rest => stderrBeforeEveryExit true rest
  | _ :: rest => stderrBeforeEveryExit seen rest

/-- True when the trace writes nothing to standard output. -/
def noStdoutWrite (t : List Event) : Bool :=
  t.all fun ev => match ev with
    | .stdout _ => false
    | _ => true

/-- Scanner: every `installHandlers` event is preceded (anywhere earlier)
by a `startCall` event. -/
def installAfterStart (seen : Bool) : List Event → Bool
  | [] => true
  | .installHandlers :: rest => seen && installAfterStart seen rest
  | .startCall :: rest => installAfterStart true rest
  | _ :: rest => installAfterStart seen rest


/-! Helper lemmas and concrete environments. -/

/-- A fully healthy environment: variable set, directory present and
writable, all lifecycle calls succeed. -/
def envAllOk : Env :=
  { sessionDir := some "/tmp/dot-ai-sessions"
    existsThrows := false
    pathExists := true
    statThrows := false
    isDirectory := true
    writeThrows := false
    unlinkThrows := false
    initThrows := false
    startThrows := false
    stopThrows := false
    fsErrorMsg := "Error: EACCES"
    initErrorMsg := "Error: init failed"
    startErrorMsg := "Error: start failed"
    stopErrorMsg := "Error: stop failed" }

/-- Once a diagnostic line has been written, the scanner accepts any
suffix. -/
theorem stderrBeforeEveryExit_of_seen (t : List Event) :
    stderrBeforeEveryExit true t = true := by
  induction t with
  | nil => rfl
  | cons ev rest ih => cases ev <;> simpa [stderrBeforeEveryExit] using ih

/-- C6: The SIGINT handler and the SIGTERM handler are the same function of
the stop outcome; on a resolving `stop()` both write the shutdown notice,
call `stop()` once, and exit with code 0, and a whole running process
reacts to SIGINT exactly as it reacts to SIGTERM. -/
theorem sigint_sigterm_handlers_identical :
    sigintHandlerBody = sigtermHandlerBody ∧
    sigintHandlerBody true =
      [ .stderr "Shutting down DevOps AI Toolkit MCP server...\n"
      , .stopCall, .exit 0 ] ∧
    ∀ e : Env, runWithSignal e .sigint = runWithSignal e .sigterm := by
  refine ⟨funext fun b => rfl, rfl, fun e => rfl⟩

/-- C3: If `initializeWithoutCluster` rejects, the MCP server is never
constructed, `start()` is never called, and the process exits with code 1. -/
theorem init_failure_no_server (e : Env) (h : e.initThrows = true) :
    Event.constructServer ∉ mainTrace e ∧ Event.startCall ∉ mainTrace e ∧
    exitCode (mainTrace e) = some 1 := by
  obtain ⟨sd, exT, pE, stT, isD, wT, uT, iT, saT, spT, m1, m2, m3, m4⟩ := e
  simp only at h
  subst h
  cases sd with
  | none =>
    simp [mainTrace, validationTrace, validationOk, missingSessionDir,
      missingConfigTrace, afterValidationTrace, exitCode]
  | some dir =>
    cases hne : dir.isEmpty <;> cases exT <;> cases pE <;> cases stT <;>
      cases isD <;> cases wT <;> cases uT <;>
      simp [mainTrace, validationTrace, validationOk, missingSessionDir,
        missingConfigTrace, afterValidationTrace, exitCode, hne]

/-- C3 witness at a concrete failing initialization. -/
theorem init_failure_no_server_witness :
    Event.constructServer ∉ mainTrace { envAllOk with initThrows := true } ∧
    Event.startCall ∉ mainTrace { envAllOk with initThrows := true } ∧
    exitCode (mainTrace { envAllOk with initThrows := true }) = some 1 :=
  init_failure_no_server { envAllOk with initThrows := true } rfl

/-- C9: When the probe write succeeds but the probe delete throws, the
validator reports the directory as not writable, the process exits with
code 1, and the probe file `.mcp-test-write` with content `test` remains in
the session directory. -/
theorem unlink_failure_probe_remains (e : Env) (dir : String)
    (hd : e.sessionDir = some dir) (hne : dir.isEmpty = false)
    (h2 : e.existsThrows = false) (h3 : e.pathExists = true)
    (h4 : e.statThrows = false) (h5 : e.isDirectory = true)
    (h6 : e.writeThrows = false) (h7 : e.unlinkThrows = true) :
    validateOutcome e = .notWritable ∧
    Event.stderr ("FATAL: Session directory is not writable: " ++ dir ++ "\n")
      ∈ mainTrace e ∧
    exitCode (mainTrace e) = some 1 ∧
    Event.probeWrite (testFilePath dir) "test" ∈ mainTrace e ∧
    hasProbeDelete (mainTrace e) = false ∧
    probeFileRemains (mainTrace e) = true := by
  obtain ⟨sd, exT, pE, stT, isD, wT, uT, iT, saT, spT, m1, m2, m3, m4⟩ := e
  simp only at hd h2 h3 h4 h5 h6 h7
  subst hd h2 h3 h4 h5 h6 h7
  simp [mainTrace, validationTrace, validateOutcome, validationOk,
    missingSessionDir, hne, exitCode, hasProbeDelete, probeFileRemains,
    hasProbeWrite]

/-- C9 witness at a concrete environment whose probe delete throws. -/
theorem unlink_failure_probe_remains_witness :
    validateOutcome { envAllOk with unlinkThrows := true } = .notWritable ∧
    probeFileRemains (mainTrace { envAllOk with unlinkThrows := true }) = true :=
  ⟨(unlink_failure_probe_remains { envAllOk with unlinkThrows := true }
      "/tmp/dot-ai-sessions" rfl rfl rfl rfl rfl rfl rfl rfl).1,
   (unlink_failure_probe_remains { envAllOk with unlinkThrows := true }
      "/tmp/dot-ai-sessions" rfl rfl rfl rfl rfl rfl rfl rfl).2.2.2.2.2⟩

/-- C10: If the existence or stat check itself throws, the exception is
caught by the enclosing handler: the validator emits the generic
`Session directory validation failed` diagnostic and exits with code 1, and
the outcome is none of the four named preflight failures. -/
theorem fs_throw_generic_failure (e : Env)
    (hm : missingSessionDir e = false)
    (ht : e.existsThrows = true ∨ (e.pathExists = true ∧ e.statThrows = true)) :
    validateOutcome e = .genericFailure ∧
    Event.stderr ("FATAL: Session directory validation failed: "
        ++ e.fsErrorMsg ++ "\n") ∈ mainTrace e ∧
    exitCode (mainTrace e) = some 1 ∧
    validateOutcome e ≠ .missingConfig ∧ validateOutcome e ≠ .pathNotFound ∧
    validateOutcome e ≠ .notADirectory ∧ validateOutcome e ≠ .notWritable := by
  obtain ⟨sd, exT, pE, stT, isD, wT, uT, iT, saT, spT, m1, m2, m3, m4⟩ := e
  cases sd with
  | none => simp [missingSessionDir] at hm
  | some dir =>
    simp only [missingSessionDir] at hm
    rcases ht with h | ⟨hp, hs⟩
    · simp only at h
      subst h
      simp [mainTrace, validationTrace, validateOutcome, validationOk,
        missingSessionDir, hm, exitCode]
    · simp only at hp hs
      subst hp hs
      cases exT <;>
        simp [mainTrace, validationTrace, validateOutcome, validationOk,
          missingSessionDir, hm, exitCode]

/-- C10 witness at a concrete environment whose existence check throws. -/
theorem fs_throw_generic_failure_witness :
    validateOutcome { envAllOk with existsThrows := true } = .genericFailure ∧
    exitCode (mainTrace { envAllOk with existsThrows := true }) = some 1 :=
  ⟨(fs_throw_generic_failure { envAllOk with existsThrows := true } rfl
      (Or.inl rfl)).1,
   (fs_throw_generic_failure { envAllOk with existsThrows := true } rfl
      (Or.inl rfl)).2.2.1⟩

/-- C5: On a configured, existing, directory-typed, writable session
directory, validation succeeds, the probe file is written and then deleted,
and no probe file remains after the run. -/
theorem preflight_success_no_residue (e : Env)
    (h1 : missingSessionDir e = false) (h2 : e.existsThrows = false)
    (h3 : e.pathExists = true) (h4 : e.statThrows = false)
    (h5 : e.isDirectory = true) (h6 : e.writeThrows = false)
    (h7 : e.unlinkThrows = false) :
    validateOutcome e = .ok ∧
    hasProbeWrite (validationTrace e) = true ∧
    hasProbeDelete (validationTrace e) = true ∧
    probeFileRemains (validationTrace e) = false ∧
    probeFileRemains (mainTrace e) = false := by
  obtain ⟨sd, exT, pE, stT, isD, wT, uT, iT, saT, spT, m1, m2, m3, m4⟩ := e
  cases sd with
  | none => simp [missingSessionDir] at h1
  | some dir =>
    simp only [missingSessionDir] at h1
    simp only at h2 h3 h4 h5 h6 h7
    subst h2 h3 h4 h5 h6 h7
    cases iT <;> cases saT <;>
      simp [mainTrace, validationTrace, validateOutcome, validationOk,
        missingSessionDir, h1, afterValidationTrace, probeFileRemains,
        hasProbeWrite, hasProbeDelete]

/-- C5 witness at a concrete healthy environment. -/
theorem preflight_success_no_residue_witness :
    validateOutcome envAllOk = .ok ∧
    probeFileRemains (mainTrace envAllOk) = false :=
  ⟨(preflight_success_no_residue envAllOk rfl rfl rfl rfl rfl rfl rfl).1,
   (preflight_success_no_residue envAllOk rfl rfl rfl rfl rfl rfl rfl).2.2.2.2⟩

/-- C1 counterexample: a run that reached the Running state and whose
`stop()` rejects.  The SIGINT callback's rejected promise reaches the
`unhandledRejection` handler, so the process performs exactly one `stop()`
call but exits with code 1, not 0 — refuting the claim that exit code 0 is
reached even when `stop()` rejects. -/
theorem running_stop_reject_exits_one :
    runningReached { envAllOk with stopThrows := true } = true ∧
    countStopCalls
      (runWithSignal { envAllOk with stopThrows := true } .sigint) = 1 ∧
    exitCode (runWithSignal { envAllOk with stopThrows := true } .sigint)
      = some 1 ∧
    exitCode (runWithSignal { envAllOk with stopThrows := true } .sigint)
      ≠ some 0 := by
  decide

/-- C1 (amended): a signal received in the Running state always produces
exactly one call to `stop()`; the process exits with code 0 when `stop()`
resolves, and with code 1 (through the unhandled-rejection handler) when
`stop()` rejects — in either case it exits rather than hang. -/
theorem running_signal_one_stop (e : Env) (sig : Signal)
    (h : runningReached e = true) :
    countStopCalls (runWithSignal e sig) = 1 ∧
    (e.stopThrows = false → exitCode (runWithSignal e sig) = some 0) ∧
    (e.stopThrows = true → exitCode (runWithSignal e sig) = some 1) := by
  obtain ⟨sd, exT, pE, stT, isD, wT, uT, iT, saT, spT, m1, m2, m3, m4⟩ := e
  cases sd with
  | none => simp [runningReached, validationOk, missingSessionDir] at h
  | some dir =>
    simp only [runningReached, validationOk, missingSessionDir,
      Bool.and_eq_true, Bool.not_eq_true'] at h
    obtain ⟨⟨⟨⟨⟨⟨⟨⟨hne, hex⟩, hpe⟩, hst⟩, hid⟩, hwt⟩, hut⟩, hit⟩, hsat⟩ := h
    subst hex hpe hst hid hwt hut hit hsat
    cases spT <;> cases sig <;>
      simp [runWithSignal, runningReached, validationOk, missingSessionDir,
        mainTrace, validationTrace, afterValidationTrace, signalDeliveryTrace,
        handlerBodyFor, sigintHandlerBody, sigtermHandlerBody,
        unhandledRejectionTrace, exitCode, countStopCalls, hne,
        List.countP_cons, List.countP_nil]

/-- C1 (amended) witness at a concrete healthy environment and SIGTERM. -/
theorem running_signal_one_stop_witness :
    countStopCalls (runWithSignal envAllOk .sigterm) = 1 ∧
    exitCode (runWithSignal envAllOk .sigterm) = some 0 :=
  ⟨(running_signal_one_stop envAllOk .sigterm rfl).1,
   (running_signal_one_stop envAllOk .sigterm rfl).2.1 rfl⟩

/-- C4: Every run that fails before reaching the Running state exits with
code 1 and never calls `stop()` — even if a signal is delivered, since no
handler was registered. -/
theorem fatal_before_running_no_stop (e : Env) (sig : Signal)
    (h : runningReached e = false) :
    exitCode (runWithSignal e sig) = some 1 ∧
    Event.stopCall ∉ runWithSignal e sig := by
  obtain ⟨sd, exT, pE, stT, isD, wT, uT, iT, saT, spT, m1, m2, m3, m4⟩ := e
  cases sd with
  | none =>
    simp [runWithSignal, runningReached, validationOk, missingSessionDir,
      mainTrace, validationTrace, missingConfigTrace, exitCode]
  | some dir =>
    cases hne : dir.isEmpty <;> cases exT <;> cases pE <;> cases stT <;>
      cases isD <;> cases wT <;> cases uT <;> cases iT <;> cases saT <;>
      simp_all [runWithSignal, runningReached, validationOk, missingSessionDir,
        mainTrace, validationTrace, afterValidationTrace, missingConfigTrace,
        exitCode]

/-- C4 witness at a concrete environment whose start call rejects. -/
theorem fatal_before_running_no_stop_witness :
    exitCode (runWithSignal { envAllOk with startThrows := true } .sigint)
      = some 1 ∧
    Event.stopCall ∉ runWithSignal { envAllOk with startThrows := true } .sigint :=
  fatal_before_running_no_stop { envAllOk with startThrows := true } .sigint rfl

/-- C2: When the filesystem checks return rather than throw, the preflight
outcome is exactly the spec's ordered function of the tuple (variable
present and non-empty, path exists, path is a directory, probe write and
delete succeed); every failing outcome exits the process with code 1, and
each failure skips all later checks (missing config performs no filesystem
call, a missing path is never stat-ed, a non-directory is never probed). -/
theorem preflight_pure_ordered (e : Env)
    (hex : e.existsThrows = false) (hst : e.statThrows = false) :
    validateOutcome e = specOrderedOutcome (preflightTuple e) ∧
    (validateOutcome e ≠ .ok → exitCode (mainTrace e) = some 1) ∧
    (missingSessionDir e = true →
      Event.existsCheck ∉ mainTrace e ∧ Event.statCheck ∉ mainTrace e ∧
      hasProbeWrite (mainTrace e) = false) ∧
    (missingSessionDir e = false → e.pathExists = false →
      Event.statCheck ∉ mainTrace e ∧ hasProbeWrite (mainTrace e) = false) ∧
    (missingSessionDir e = false → e.pathExists = true → e.isDirectory = false →
      hasProbeWrite (mainTrace e) = false) := by
  obtain ⟨sd, exT, pE, stT, isD, wT, uT, iT, saT, spT, m1, m2, m3, m4⟩ := e
  simp only at hex hst
  subst hex hst
  cases sd with
  | none =>
    simp [validateOutcome, specOrderedOutcome, preflightTuple,
      missingSessionDir, mainTrace, validationTrace, validationOk,
      missingConfigTrace, exitCode, hasProbeWrite]
  | some dir =>
    cases hne : dir.isEmpty <;> cases pE <;> cases isD <;> cases wT <;>
      cases uT <;>
      simp [validateOutcome, specOrderedOutcome, preflightTuple,
        missingSessionDir, mainTrace, validationTrace, validationOk,
        afterValidationTrace, missingConfigTrace, exitCode, hasProbeWrite,
        hne]

/-- C2 witness at a concrete environment whose configured path is a file,
not a directory. -/
theorem preflight_pure_ordered_witness :
    validateOutcome { envAllOk with isDirectory := false } =
      specOrderedOutcome (preflightTuple { envAllOk with isDirectory := false }) ∧
    hasProbeWrite (mainTrace { envAllOk with isDirectory := false }) = false :=
  ⟨(preflight_pure_ordered { envAllOk with isDirectory := false } rfl rfl).1,
   (preflight_pure_ordered { envAllOk with isDirectory := false } rfl rfl).2.2.2.2
      rfl rfl rfl⟩

/-- C7: Signal handlers are registered only on the full-success path and
only after `start()` has been called and resolved; on every path that does
not reach the Running state no handler is installed, so a signal delivered
then cannot invoke `stop()`. -/
theorem handlers_installed_after_start (e : Env) (sig : Signal) :
    installAfterStart false (mainTrace e) = true ∧
    (Event.installHandlers ∈ mainTrace e ↔ runningReached e = true) ∧
    (runningReached e = false → Event.stopCall ∉ runWithSignal e sig) := by
  obtain ⟨sd, exT, pE, stT, isD, wT, uT, iT, saT, spT, m1, m2, m3, m4⟩ := e
  cases sd with
  | none =>
    simp [installAfterStart, runWithSignal, runningReached, validationOk,
      missingSessionDir, mainTrace, validationTrace, missingConfigTrace]
  | some dir =>
    cases hne : dir.isEmpty <;> cases exT <;> cases pE <;> cases stT <;>
      cases isD <;> cases wT <;> cases uT <;> cases iT <;> cases saT <;>
      simp_all [installAfterStart, runWithSignal, runningReached, validationOk,
        missingSessionDir, mainTrace, validationTrace, afterValidationTrace,
        missingConfigTrace]

/-- C7 witness: with a non-existent session directory the running state is
not reached and a delivered SIGINT cannot invoke `stop()`. -/
theorem handlers_installed_after_start_witness :
    Event.stopCall ∉ runWithSignal { envAllOk with pathExists := false } .sigint :=
  (handlers_installed_after_start { envAllOk with pathExists := false }
    .sigint).2.2 rfl

/-- The validation block never writes to standard output. -/
theorem noStdoutWrite_validation (e : Env) :
    noStdoutWrite (validationTrace e) = true := by
  obtain ⟨sd, exT, pE, stT, isD, wT, uT, iT, saT, spT, m1, m2, m3, m4⟩ := e
  cases sd with
  | none => simp [validationTrace, missingSessionDir, missingConfigTrace, noStdoutWrite]
  | some dir =>
    cases hne : dir.isEmpty <;> cases exT <;> cases pE <;> cases stT <;>
      cases isD <;> cases wT <;> cases uT <;>
      simp [validationTrace, missingSessionDir, missingConfigTrace,
        noStdoutWrite, hne]

/-- The post-validation block never writes to standard output. -/
theorem noStdoutWrite_after (e : Env) :
    noStdoutWrite (afterValidationTrace e) = true := by
  obtain ⟨sd, exT, pE, stT, isD, wT, uT, iT, saT, spT, m1, m2, m3, m4⟩ := e
  cases iT <;> cases saT <;> simp [afterValidationTrace, noStdoutWrite]

/-- Signal delivery never writes to standard output. -/
theorem noStdoutWrite_delivery (e : Env) (sig : Signal) :
    noStdoutWrite (signalDeliveryTrace sig e) = true := by
  obtain ⟨sd, exT, pE, stT, isD, wT, uT, iT, saT, spT, m1, m2, m3, m4⟩ := e
  cases sig <;> cases spT <;>
    simp [signalDeliveryTrace, handlerBodyFor, sigintHandlerBody,
      sigtermHandlerBody, unhandledRejectionTrace, noStdoutWrite]

/-- The no-stdout check distributes over concatenation. -/
theorem noStdoutWrite_append (a b : List Event) :
    noStdoutWrite (a ++ b) = (noStdoutWrite a && noStdoutWrite b) := by
  simp [noStdoutWrite]

/-- A leading diagnostic line does not affect the no-stdout check. -/
theorem noStdoutWrite_cons_stderr (s : String) (t : List Event) :
    noStdoutWrite (.stderr s :: t) = noStdoutWrite t := by
  simp [noStdoutWrite]

/-- The empty trace passes the no-stdout check. -/
theorem noStdoutWrite_nil : noStdoutWrite [] = true := rfl

/-- C8: Every termination path — any boot failure, signal-driven shutdown
(including a rejecting `stop()`), an uncaught exception, an unhandled
rejection, and the final catch of `main` — writes at least one diagnostic
line to standard error before the process exit, and no path ever writes a
lifecycle message to standard output. -/
theorem every_termination_diagnosed (e : Env) (sig : Signal)
    (err reason : String) :
    stderrBeforeEveryExit false (runWithSignal e sig) = true ∧
    noStdoutWrite (runWithSignal e sig) = true ∧
    stderrBeforeEveryExit false (uncaughtExceptionTrace err) = true ∧
    noStdoutWrite (uncaughtExceptionTrace err) = true ∧
    stderrBeforeEveryExit false (unhandledRejectionTrace reason) = true ∧
    noStdoutWrite (unhandledRejectionTrace reason) = true ∧
    stderrBeforeEveryExit false (mainCatchTrace err) = true ∧
    noStdoutWrite (mainCatchTrace err) = true := by
  refine ⟨?_, ?_, ?_, ?_, ?_, ?_, ?_, ?_⟩
  · rw [runWithSignal, mainTrace]
    simp [stderrBeforeEveryExit, stderrBeforeEveryExit_of_seen]
  · have hv := noStdoutWrite_validation e
    have ha := noStdoutWrite_after e
    have hd := noStdoutWrite_delivery e sig
    rw [runWithSignal, mainTrace]
    by_cases hok : validationOk e = true <;>
      by_cases hrun : runningReached e = true <;>
      simp [noStdoutWrite_append, noStdoutWrite_cons_stderr, noStdoutWrite_nil,
        hv, ha, hd, hok, hrun]
  · simp [uncaughtExceptionTrace, stderrBeforeEveryExit]
  · simp [uncaughtExceptionTrace, noStdoutWrite]
  · simp [unhandledRejectionTrace, stderrBeforeEveryExit]
  · simp [unhandledRejectionTrace, noStdoutWrite]
  · simp [mainCatchTrace, stderrBeforeEveryExit]
  · simp [mainCatchTrace, noStdoutWrite]

end DotAiMcp

